import Mathlib

/-!
# Verification of the `useSlider` hook (TheFrost/use-slider-hook)

Shallow embedding of the slider controller implemented in `src/index.js`
(shipped inside `src/src/index.d.ts` in this snapshot, lines 164-406).
JavaScript numbers that stay integral (slide indices, accumulated timer
milliseconds) are modelled as `Int`; the JavaScript `%` operator is
`Int.tmod` (truncated remainder, matching JS for a nonzero right operand).
Progress percentages are modelled as `ℚ`; where JavaScript division can
produce `NaN` or `Infinity` (the pure progress calculators) we use an
explicit `JSNum` type.

The two `setInterval` timers are modelled by `Option Int` fields holding
the callback's accumulated local time (`progressTime` / `loopTime`);
`none` means no interval is scheduled.  A tick of an interval is an
explicit operation (`slideTick` / `loopTick`).  React effects that react
to `isVisible` changes are modelled as the state transformers
`visibilityEffect` (the effect at lines 347-355) and `autoScrollEffect`
(the effect at lines 362-380, whose cleanup clears both intervals before
the body runs again).
-/

namespace UseSlider

/-- The `direction` state: `'next'` or `'prev'`. -/
inductive Direction where
  | next
  | prev
deriving DecidableEq

/-- Hook configuration (`autoScroll`, `loop`, `speed`, `totalSlides`),
immutable for the lifetime of a hook instance. -/
structure Config where
  autoScroll : Bool
  loop : Bool
  speed : Int
  totalSlides : Int
deriving DecidableEq

/-- The mutable state owned by the hook: the `indexState` record, the
progress values, the direction, the refs (`isVisible`, `isAnimating`,
`isInitialized`) and the two interval handles with their callbacks'
accumulated time. -/
structure SliderState where
  currentSlide : Int
  prevIndex : Int
  nextIndex : Int
  slideTimeProgress : ℚ
  loopProgress : ℚ
  direction : Direction
  isVisible : Bool
  isAnimating : Bool
  isInitialized : Bool
  slideTimer : Option Int
  loopTimer : Option Int
deriving DecidableEq

/-- JavaScript numeric results of the pure progress calculators: a finite
value, `NaN`, or a signed infinity. -/
inductive JSNum where
  | num (q : ℚ)
  | nan
  | inf
  | neginf
deriving DecidableEq

/-- JavaScript division `a / b` on (finite) numbers: division by zero
yields `NaN` when the numerator is zero and a signed infinity otherwise. -/
def jsDiv (a b : ℚ) : JSNum :=
  if b = 0 then
    if a = 0 then JSNum.nan else if 0 < a then JSNum.inf else JSNum.neginf
  else JSNum.num (a / b)

/-- Multiplication of a JavaScript numeric result by the positive literal
`100` (used as `... * 100` in both progress calculators). -/
def jsMul100 : JSNum → JSNum
  | JSNum.num q => JSNum.num (q * 100)
  | JSNum.nan => JSNum.nan
  | JSNum.inf => JSNum.inf
  | JSNum.neginf => JSNum.neginf

/-- Source function `calculateBulletProgress(totalSlides, activeIndex)` (lines
216-220): clamp `activeIndex` into `[0, totalSlides-1]`, then
`(activeIndex / (totalSlides - 1)) * 100`. -/
def calculateBulletProgress (totalSlides activeIndex : Int) : JSNum :=
  let a1 : Int := if activeIndex < 0 then 0 else activeIndex
  let a2 : Int := if a1 ≥ totalSlides then totalSlides - 1 else a1
  jsMul100 (jsDiv (a2 : ℚ) ((totalSlides - 1 : Int) : ℚ))

/-- The `totalProgress` computation of the effect at source lines 386-390:
`((currentSlide + 1) / totalSlides) * 100`. -/
def totalProgressOf (totalSlides currentSlide : Int) : JSNum :=
  jsMul100 (jsDiv ((currentSlide + 1 : Int) : ℚ) ((totalSlides : Int) : ℚ))

/-- Source function `updateIndexes(newCurrentSlide, prevSlide = null)` (lines
222-227).  All in-repo callers pass the old `currentSlideRef.current` as
`prevSlide`, so the parameter is an `Option Int` (`none` models the
JavaScript `null` default). -/
def updateIndexes (cfg : Config) (s : SliderState)
    (newCurrentSlide : Int) (prevSlide : Option Int) : SliderState :=
  let prevIndex : Int :=
    match prevSlide with
    | some p => p
    | none =>
      if newCurrentSlide = 0 then (if cfg.loop then cfg.totalSlides - 1 else 0)
      else newCurrentSlide - 1
  let nextIndex : Int :=
    if newCurrentSlide = cfg.totalSlides - 1 then (if cfg.loop then 0 else cfg.totalSlides - 1)
    else newCurrentSlide + 1
  { s with currentSlide := newCurrentSlide, prevIndex := prevIndex, nextIndex := nextIndex }

/-- Source function `startSlideProgress` (lines 261-282): no-op unless
`autoScroll && speed > 0`; otherwise clear any existing slide interval and
schedule a fresh one with local `progressTime = 0`.  (The displayed
`slideTimeProgress` is only written by the interval's ticks.) -/
def startSlideProgress (cfg : Config) (s : SliderState) : SliderState :=
  if cfg.autoScroll = false ∨ cfg.speed ≤ 0 then s
  else { s with slideTimer := some 0 }

/-- Source function `nextSlide` (lines 229-249): guarded by `isAnimating` and
`isInitialized`; sets direction `next`; computes the candidate slide by
wrap (`% totalSlides`, JavaScript truncated remainder) or clamp; at the
non-looping last slide it clears the slide interval and forces
`slideTimeProgress = 100`; otherwise it calls `updateIndexes` with the old
current slide and restarts the slide interval.  The `isAnimating` flag is
set and cleared within the call, so it is `false` again on every exit
path that reached the assignment. -/
def nextSlide (cfg : Config) (s : SliderState) : SliderState :=
  if s.isAnimating = true ∨ s.isInitialized = false then s
  else
    let s1 := { s with direction := Direction.next }
    let newSlide : Int :=
      if cfg.loop then (s1.currentSlide + 1).tmod cfg.totalSlides
      else min (s1.currentSlide + 1) (cfg.totalSlides - 1)
    if cfg.loop = false ∧ newSlide = s1.currentSlide then
      { s1 with slideTimer := none, slideTimeProgress := 100 }
    else
      startSlideProgress cfg (updateIndexes cfg s1 newSlide (some s1.currentSlide))

/-- Source function `prevSlide` (lines 251-259): no readiness or re-entrancy
guard; sets direction `prev`; wraps with `(current - 1 + totalSlides) %
totalSlides` or clamps with `max(current - 1, 0)`; always calls
`updateIndexes` and restarts the slide interval. -/
def prevSlide (cfg : Config) (s : SliderState) : SliderState :=
  let s1 := { s with direction := Direction.prev }
  let newSlide : Int :=
    if cfg.loop then (s1.currentSlide - 1 + cfg.totalSlides).tmod cfg.totalSlides
    else max (s1.currentSlide - 1) 0
  startSlideProgress cfg (updateIndexes cfg s1 newSlide (some s1.currentSlide))

/-- One firing of the slide-progress interval callback (source lines
268-281): add the 100 ms tick, publish `slideTimeProgress`; on reaching
100 clear the interval, reset the published progress to 0, and trigger
`nextSlide()` when `loop || currentSlide < totalSlides - 1`. -/
def slideTick (cfg : Config) (s : SliderState) : SliderState :=
  match s.slideTimer with
  | none => s
  | some progressTime =>
    let progressTime' := progressTime + 100
    let slideProgress : ℚ := ((progressTime' : Int) : ℚ) / ((cfg.speed : Int) : ℚ) * 100
    let s1 := { s with slideTimer := some progressTime', slideTimeProgress := slideProgress }
    if 100 ≤ slideProgress then
      let s2 := { s1 with slideTimer := none, slideTimeProgress := 0 }
      if cfg.loop = true ∨ s2.currentSlide < cfg.totalSlides - 1 then nextSlide cfg s2
      else s2
    else s1

/-- Source function `handleLoopProgress(initialProgress = 0)` (lines 284-299,
start part): clear any existing loop interval and schedule a fresh one
whose local `loopTime` starts at the seed. -/
def handleLoopProgress (_cfg : Config) (s : SliderState) (initialProgress : Int) : SliderState :=
  { s with loopTimer := some initialProgress }

/-- One firing of the loop-progress interval callback (source lines
290-298): add the 100 ms tick, publish `progress = loopTime /
(speed * totalSlides) * 100`, and reset the local accumulator to 0 once
the published value reaches 100 (the over-100 value itself is published
before the reset). -/
def loopTick (cfg : Config) (s : SliderState) : SliderState :=
  match s.loopTimer with
  | none => s
  | some loopTime =>
    let loopTime' := loopTime + 100
    let progress : ℚ :=
      ((loopTime' : Int) : ℚ) / ((cfg.speed * cfg.totalSlides : Int) : ℚ) * 100
    let loopTime'' : Int := if 100 ≤ progress then 0 else loopTime'
    { s with loopTimer := some loopTime'', loopProgress := progress }

/-- The target normalization of `goToSlide` (source line 308):
`index % totalSlides` (JavaScript truncated remainder) when looping, else
`Math.min(Math.max(index, 0), totalSlides - 1)`. -/
def normalizeIndex (cfg : Config) (index : Int) : Int :=
  if cfg.loop then index.tmod cfg.totalSlides
  else min (max index 0) (cfg.totalSlides - 1)

/-- Source function `goToSlide(index)` (lines 301-320): no-op when `index` equals
the current slide; otherwise clear both intervals, normalize the target,
set direction by comparing the normalized target with the current slide,
call `updateIndexes`, and when `autoScroll && speed > 0` restart the loop
interval seeded with `newSlide * speed` and the slide interval from 0. -/
def goToSlide (cfg : Config) (s : SliderState) (index : Int) : SliderState :=
  if index = s.currentSlide then s
  else
    let s1 := { s with slideTimer := none, loopTimer := none }
    let newSlide : Int := normalizeIndex cfg index
    let s2 := { s1 with direction :=
      if s1.currentSlide < newSlide then Direction.next else Direction.prev }
    let s3 := updateIndexes cfg s2 newSlide (some s2.currentSlide)
    if cfg.autoScroll = true ∧ 0 < cfg.speed then
      startSlideProgress cfg (handleLoopProgress cfg s3 (newSlide * cfg.speed))
    else s3

/-- The visibility effect (source lines 347-355): when not visible, clear
both intervals and reset `slideTimeProgress`; when visible, re-invoke
`goToSlide(currentSlideRef.current)`. -/
def visibilityEffect (cfg : Config) (s : SliderState) : SliderState :=
  if s.isVisible = false then
    { s with slideTimer := none, loopTimer := none, slideTimeProgress := 0 }
  else goToSlide cfg s s.currentSlide

/-- The auto-scroll effect (source lines 362-380).  On a re-run its
cleanup clears both intervals first; then, once initialized, it either
starts both intervals (`startSlideProgress()` then `handleLoopProgress()`
with the default seed 0) when `autoScroll && isVisible && speed > 0`, or
resets `slideTimeProgress` and clears both intervals; the very first run
only records initialization. -/
def autoScrollEffect (cfg : Config) (s : SliderState) : SliderState :=
  let s1 := { s with slideTimer := none, loopTimer := none }
  if s1.isInitialized = true then
    if cfg.autoScroll = true ∧ s1.isVisible = true ∧ 0 < cfg.speed then
      handleLoopProgress cfg (startSlideProgress cfg s1) 0
    else { s1 with slideTimeProgress := 0, slideTimer := none, loopTimer := none }
  else { s1 with isInitialized := true }

/-- The state after the initial `useState`/`useRef` calls (source lines
198-214), before any effect has run: `currentSlide = 0`,
`prevIndex = totalSlides - 1`, `nextIndex = 1`, all progress 0, direction
`'next'`, not visible, not animating, not initialized, no intervals. -/
def initState (cfg : Config) : SliderState :=
  { currentSlide := 0
    prevIndex := cfg.totalSlides - 1
    nextIndex := 1
    slideTimeProgress := 0
    loopProgress := 0
    direction := Direction.next
    isVisible := false
    isAnimating := false
    isInitialized := false
    slideTimer := none
    loopTimer := none }

/-- The state after the first render's effects have run in declaration
order (the IntersectionObserver effect touches no controller state): the
visibility effect runs with `isVisible = false`, then the auto-scroll
effect's first run records initialization. -/
def mount (cfg : Config) : SliderState :=
  autoScrollEffect cfg (visibilityEffect cfg (initState cfg))

/-- An externally reported visibility change: when the value actually
changes, both `isVisible`-dependent effects re-run in declaration order. -/
def setVisible (cfg : Config) (s : SliderState) (v : Bool) : SliderState :=
  if v = s.isVisible then s
  else autoScrollEffect cfg (visibilityEffect cfg { s with isVisible := v })

/-- The observable events driving the controller after mount: the three
navigation calls, visibility changes, and a firing of either interval. -/
inductive Op where
  | next
  | prev
  | goTo (index : Int)
  | visible (v : Bool)
  | slideTick
  | loopTick
deriving DecidableEq

/-- Interpretation of one event. -/
def applyOp (cfg : Config) (s : SliderState) : Op → SliderState
  | Op.next => nextSlide cfg s
  | Op.prev => prevSlide cfg s
  | Op.goTo index => goToSlide cfg s index
  | Op.visible v => setVisible cfg s v
  | Op.slideTick => slideTick cfg s
  | Op.loopTick => loopTick cfg s

/-- The state reached from a fresh mount by a sequence of events; the
reachable states of the controller are exactly `runOps cfg ops`. -/
def runOps (cfg : Config) (ops : List Op) : SliderState :=
  ops.foldl (applyOp cfg) (mount cfg)

/-- Modelled from the spec: the spec's recomputation of `prevIndex` as
"currentSlide-1 wrapped/clamped per loop policy" (for comparison with the
code's `updateIndexes`). -/
def specPrevIndex (cfg : Config) (cur : Int) : Int :=
  if cfg.loop then (cur - 1 + cfg.totalSlides).tmod cfg.totalSlides
  else max (cur - 1) 0

/-- Modelled from the spec: the spec's recomputation of `nextIndex` as
"currentSlide+1 wrapped/clamped per loop policy" (for comparison with the
code's `updateIndexes`). -/
def specNextIndex (cfg : Config) (cur : Int) : Int :=
  if cfg.loop then (cur + 1).tmod cfg.totalSlides
  else min (cur + 1) (cfg.totalSlides - 1)

/-! ### Concrete configurations used in counterexamples and witnesses -/

/-- A looping single-slide configuration without auto-scroll. -/
def cfg1 : Config := ⟨false, true, 3000, 1⟩

/-- A looping five-slide configuration without auto-scroll. -/
def cfg5 : Config := ⟨false, true, 3000, 5⟩

/-- A looping three-slide auto-scroll configuration, speed 1000 ms. -/
def cfgAuto : Config := ⟨true, true, 1000, 3⟩

/-- A looping single-slide auto-scroll configuration whose cycle duration
(150 ms) is not a multiple of the 100 ms tick. -/
def cfgTick : Config := ⟨true, true, 150, 1⟩

/-- A non-looping five-slide auto-scroll configuration. -/
def cfgNoLoop : Config := ⟨true, false, 1000, 5⟩

/-! ### Projection lemmas for the state transformers -/

@[simp]
theorem updateIndexes_currentSlide (cfg : Config) (s : SliderState) (n : Int) (p : Option Int) :
    (updateIndexes cfg s n p).currentSlide = n := rfl

@[simp]
theorem updateIndexes_slideTimer (cfg : Config) (s : SliderState) (n : Int) (p : Option Int) :
    (updateIndexes cfg s n p).slideTimer = s.slideTimer := rfl

@[simp]
theorem updateIndexes_loopTimer (cfg : Config) (s : SliderState) (n : Int) (p : Option Int) :
    (updateIndexes cfg s n p).loopTimer = s.loopTimer := rfl

@[simp]
theorem updateIndexes_loopProgress (cfg : Config) (s : SliderState) (n : Int) (p : Option Int) :
    (updateIndexes cfg s n p).loopProgress = s.loopProgress := rfl

@[simp]
theorem updateIndexes_slideTimeProgress (cfg : Config) (s : SliderState) (n : Int) (p : Option Int) :
    (updateIndexes cfg s n p).slideTimeProgress = s.slideTimeProgress := rfl

@[simp]
theorem updateIndexes_direction (cfg : Config) (s : SliderState) (n : Int) (p : Option Int) :
    (updateIndexes cfg s n p).direction = s.direction := rfl

@[simp]
theorem updateIndexes_isVisible (cfg : Config) (s : SliderState) (n : Int) (p : Option Int) :
    (updateIndexes cfg s n p).isVisible = s.isVisible := rfl

@[simp]
theorem updateIndexes_prevIndex_some (cfg : Config) (s : SliderState) (n : Int) (p : Int) :
    (updateIndexes cfg s n (some p)).prevIndex = p := rfl

@[simp]
theorem updateIndexes_nextIndex (cfg : Config) (s : SliderState) (n : Int) (p : Option Int) :
    (updateIndexes cfg s n p).nextIndex =
      (if n = cfg.totalSlides - 1 then (if cfg.loop then 0 else cfg.totalSlides - 1)
       else n + 1) := rfl

theorem startSlideProgress_eq (cfg : Config) (s : SliderState) :
    startSlideProgress cfg s =
      (if cfg.autoScroll = false ∨ cfg.speed ≤ 0 then s else { s with slideTimer := some 0 }) :=
  rfl

@[simp]
theorem startSlideProgress_currentSlide (cfg : Config) (s : SliderState) :
    (startSlideProgress cfg s).currentSlide = s.currentSlide := by
  rw [startSlideProgress_eq]; split <;> rfl

@[simp]
theorem startSlideProgress_prevIndex (cfg : Config) (s : SliderState) :
    (startSlideProgress cfg s).prevIndex = s.prevIndex := by
  rw [startSlideProgress_eq]; split <;> rfl

@[simp]
theorem startSlideProgress_nextIndex (cfg : Config) (s : SliderState) :
    (startSlideProgress cfg s).nextIndex = s.nextIndex := by
  rw [startSlideProgress_eq]; split <;> rfl

@[simp]
theorem startSlideProgress_loopTimer (cfg : Config) (s : SliderState) :
    (startSlideProgress cfg s).loopTimer = s.loopTimer := by
  rw [startSlideProgress_eq]; split <;> rfl

@[simp]
theorem startSlideProgress_loopProgress (cfg : Config) (s : SliderState) :
    (startSlideProgress cfg s).loopProgress = s.loopProgress := by
  rw [startSlideProgress_eq]; split <;> rfl

@[simp]
theorem startSlideProgress_slideTimeProgress (cfg : Config) (s : SliderState) :
    (startSlideProgress cfg s).slideTimeProgress = s.slideTimeProgress := by
  rw [startSlideProgress_eq]; split <;> rfl

@[simp]
theorem startSlideProgress_direction (cfg : Config) (s : SliderState) :
    (startSlideProgress cfg s).direction = s.direction := by
  rw [startSlideProgress_eq]; split <;> rfl

@[simp]
theorem startSlideProgress_isVisible (cfg : Config) (s : SliderState) :
    (startSlideProgress cfg s).isVisible = s.isVisible := by
  rw [startSlideProgress_eq]; split <;> rfl

@[simp]
theorem handleLoopProgress_currentSlide (cfg : Config) (s : SliderState) (p : Int) :
    (handleLoopProgress cfg s p).currentSlide = s.currentSlide := rfl

@[simp]
theorem handleLoopProgress_prevIndex (cfg : Config) (s : SliderState) (p : Int) :
    (handleLoopProgress cfg s p).prevIndex = s.prevIndex := rfl

@[simp]
theorem handleLoopProgress_nextIndex (cfg : Config) (s : SliderState) (p : Int) :
    (handleLoopProgress cfg s p).nextIndex = s.nextIndex := rfl

@[simp]
theorem handleLoopProgress_slideTimer (cfg : Config) (s : SliderState) (p : Int) :
    (handleLoopProgress cfg s p).slideTimer = s.slideTimer := rfl

@[simp]
theorem handleLoopProgress_loopTimer (cfg : Config) (s : SliderState) (p : Int) :
    (handleLoopProgress cfg s p).loopTimer = some p := rfl

@[simp]
theorem handleLoopProgress_loopProgress (cfg : Config) (s : SliderState) (p : Int) :
    (handleLoopProgress cfg s p).loopProgress = s.loopProgress := rfl

@[simp]
theorem handleLoopProgress_direction (cfg : Config) (s : SliderState) (p : Int) :
    (handleLoopProgress cfg s p).direction = s.direction := rfl

/-- Calling `goToSlide` at the current slide is a complete no-op (the
guard at source line 303). -/
theorem goToSlide_self (cfg : Config) (s : SliderState) :
    goToSlide cfg s s.currentSlide = s := by
  unfold goToSlide
  rw [if_pos rfl]

/-! ### Claim C3: progress calculators at `totalSlides ≤ 1` -/

/-- C3: the claim (and the repository's own documentation, which states
`bulletProgress` is a percentage from 0 to 100) requires the progress
calculations at `totalSlides ≤ 1` to avoid division by zero and produce
a fixed defined value.  Evaluating the code at the failing input:
`calculateBulletProgress` with `totalSlides = 1`, `currentSlide = 0`
computes `(0 / 0) * 100 = NaN` — neither 0 nor 100, not a number at all
— while `totalProgress` there is 100; with `totalSlides = 0`,
`bulletProgress` is 100 (the clamp maps the index to `-1` and
`(-1)/(-1) * 100 = 100`) and `totalProgress` is `+Infinity`. -/
theorem C3_division_by_zero :
    calculateBulletProgress 1 0 = JSNum.nan ∧
    JSNum.nan ≠ JSNum.num 0 ∧ JSNum.nan ≠ JSNum.num 100 ∧
    totalProgressOf 1 0 = JSNum.num 100 ∧
    calculateBulletProgress 0 0 = JSNum.num 100 ∧
    totalProgressOf 0 0 = JSNum.inf := by
  refine ⟨by decide, by decide, by decide, ?_, ?_, ?_⟩ <;>
    norm_num [calculateBulletProgress, totalProgressOf, jsDiv, jsMul100]

/-! ### Claim C5: direction chosen by `goToSlide` -/

/-- C5, counterexample.  The claim says `goToSlide` compares the raw
target with the current slide before normalization.  From slide 3 of a
looping five-slide slider, `goToSlide(7)` has raw target `7 > 3` (so the
claim demands direction `next`), but the code compares the wrapped target
`7 % 5 = 2 < 3` and sets direction `prev`. -/
theorem C5_counterexample :
    (runOps cfg5 [Op.goTo 3]).currentSlide = 3 ∧
    (3 : Int) < 7 ∧
    (runOps cfg5 [Op.goTo 3, Op.goTo 7]).direction = Direction.prev := by decide

/-- C5, amended: for every `goToSlide(index)` call with
`index ≠ currentSlide`, the resulting direction is `next` if the
**normalized** target (wrapped when looping, clamped otherwise) is
greater than the current slide and `prev` otherwise — the comparison
happens after normalization, not before. -/
theorem C5_amended_direction (cfg : Config) (s : SliderState) (i : Int)
    (h : i ≠ s.currentSlide) :
    (goToSlide cfg s i).direction =
      (if s.currentSlide < normalizeIndex cfg i then Direction.next else Direction.prev) := by
  unfold goToSlide
  rw [if_neg h]
  split <;> simp

/-- C5, witness for the amended theorem at `goToSlide(7)` from slide 3. -/
theorem C5_amended_direction_witness :
    (7 : Int) ≠ (runOps cfg5 [Op.goTo 3]).currentSlide ∧
    (goToSlide cfg5 (runOps cfg5 [Op.goTo 3]) 7).direction =
      (if (runOps cfg5 [Op.goTo 3]).currentSlide < normalizeIndex cfg5 7 then Direction.next
       else Direction.prev) :=
  ⟨by decide, C5_amended_direction cfg5 (runOps cfg5 [Op.goTo 3]) 7 (by decide)⟩

/-! ### Claim C6: navigation before initialization -/

/-- C6, counterexample.  The claim says every navigation attempt before
the first initialization tick is silently ignored.  But only `nextSlide`
checks the `isInitialized` ref: `prevSlide` on the freshly constructed
(not yet initialized) five-slide state moves the current slide from 0 to
4. -/
theorem C6_counterexample :
    (initState cfg5).isInitialized = false ∧
    (initState cfg5).currentSlide = 0 ∧
    (prevSlide cfg5 (initState cfg5)).currentSlide = 4 := by decide

/-- C6, amended: before the first initialization tick only `nextSlide()`
is silently ignored (a complete no-op); `prevSlide()` and `goToSlide()`
have no readiness guard and do mutate state. -/
theorem C6_amended_guard (cfg : Config) (s : SliderState) (h : s.isInitialized = false) :
    nextSlide cfg s = s := by
  unfold nextSlide
  rw [if_pos (Or.inr h)]

/-- C6, witness for the amended theorem on the uninitialized state. -/
theorem C6_amended_guard_witness :
    (initState cfg5).isInitialized = false ∧
    nextSlide cfg5 (initState cfg5) = initState cfg5 :=
  ⟨rfl, C6_amended_guard cfg5 (initState cfg5) rfl⟩

/-! ### Claim C8: non-looping `nextSlide` at the last slide -/

/-- C8: with `loop = false` and `currentSlide = totalSlides - 1`,
`nextSlide()` leaves `currentSlide`, `prevIndex` and `nextIndex`
unchanged, clears the slide interval, and forces
`slideTimeProgress = 100` (no error: the function is total). -/
theorem C8_boundary (cfg : Config) (s : SliderState)
    (hl : cfg.loop = false) (hc : s.currentSlide = cfg.totalSlides - 1)
    (hi : s.isInitialized = true) (ha : s.isAnimating = false) :
    (nextSlide cfg s).currentSlide = s.currentSlide ∧
    (nextSlide cfg s).prevIndex = s.prevIndex ∧
    (nextSlide cfg s).nextIndex = s.nextIndex ∧
    (nextSlide cfg s).slideTimer = none ∧
    (nextSlide cfg s).slideTimeProgress = 100 := by
  have hmin : min (s.currentSlide + 1) (cfg.totalSlides - 1) = s.currentSlide := by
    rw [hc]; exact min_eq_right (by omega)
  unfold nextSlide
  rw [if_neg (by simp [ha, hi])]
  dsimp only
  simp [hl, hmin]

/-- A concrete state at the last slide of `cfgNoLoop` with a running
slide interval, for the C8 witness. -/
def s8 : SliderState :=
  ⟨4, 3, 4, 30, 0, Direction.next, true, false, true, some 300, none⟩

/-- C8, witness at a concrete boundary state. -/
theorem C8_boundary_witness :
    (cfgNoLoop.loop = false ∧ s8.currentSlide = cfgNoLoop.totalSlides - 1 ∧
      s8.isInitialized = true ∧ s8.isAnimating = false) ∧
    ((nextSlide cfgNoLoop s8).currentSlide = s8.currentSlide ∧
      (nextSlide cfgNoLoop s8).prevIndex = s8.prevIndex ∧
      (nextSlide cfgNoLoop s8).nextIndex = s8.nextIndex ∧
      (nextSlide cfgNoLoop s8).slideTimer = none ∧
      (nextSlide cfgNoLoop s8).slideTimeProgress = 100) := by
  refine ⟨⟨rfl, by decide, rfl, rfl⟩, ?_⟩
  exact C8_boundary cfgNoLoop s8 rfl (by decide) rfl rfl

/-! ### Claim C10: manual next/prev never touch the loop-progress timer -/

theorem nextSlide_loopTimer (cfg : Config) (s : SliderState) :
    (nextSlide cfg s).loopTimer = s.loopTimer := by
  unfold nextSlide
  split
  · rfl
  · dsimp only
    split <;> split <;> simp

theorem nextSlide_loopProgress (cfg : Config) (s : SliderState) :
    (nextSlide cfg s).loopProgress = s.loopProgress := by
  unfold nextSlide
  split
  · rfl
  · dsimp only
    split <;> split <;> simp

theorem prevSlide_loopTimer (cfg : Config) (s : SliderState) :
    (prevSlide cfg s).loopTimer = s.loopTimer := by
  unfold prevSlide
  dsimp only
  simp

theorem prevSlide_loopProgress (cfg : Config) (s : SliderState) :
    (prevSlide cfg s).loopProgress = s.loopProgress := by
  unfold prevSlide
  dsimp only
  simp

/-- C10: `nextSlide` and `prevSlide` never cancel, restart or reseed the
loop-progress interval and never change the published `loopProgress`
(they only restart the slide-progress interval), and `goToSlide` at the
current index — the only other entry point that could reseed it — is a
complete no-op. -/
theorem C10_loop_timer_untouched (cfg : Config) (s : SliderState) :
    (nextSlide cfg s).loopTimer = s.loopTimer ∧
    (nextSlide cfg s).loopProgress = s.loopProgress ∧
    (prevSlide cfg s).loopTimer = s.loopTimer ∧
    (prevSlide cfg s).loopProgress = s.loopProgress ∧
    goToSlide cfg s s.currentSlide = s :=
  ⟨nextSlide_loopTimer cfg s, nextSlide_loopProgress cfg s,
    prevSlide_loopTimer cfg s, prevSlide_loopProgress cfg s, goToSlide_self cfg s⟩

/-! ### Claim C1: index bounds for reachable states -/

/-- Predicate: `x` lies in the index range `[0, totalSlides - 1]`. -/
def inRangeIdx (cfg : Config) (x : Int) : Prop :=
  0 ≤ x ∧ x ≤ cfg.totalSlides - 1

instance (cfg : Config) (x : Int) : Decidable (inRangeIdx cfg x) :=
  inferInstanceAs (Decidable (0 ≤ x ∧ x ≤ cfg.totalSlides - 1))

/-- All three exposed indices lie in `[0, totalSlides - 1]`. -/
def IndexInv (cfg : Config) (s : SliderState) : Prop :=
  inRangeIdx cfg s.currentSlide ∧ inRangeIdx cfg s.prevIndex ∧ inRangeIdx cfg s.nextIndex

instance (cfg : Config) (s : SliderState) : Decidable (IndexInv cfg s) :=
  inferInstanceAs (Decidable (_ ∧ _ ∧ _))

/-- Restriction on the events of a run: `goToSlide` is only called with a
nonnegative index (with `loop = true`, a negative raw index survives the
JavaScript `%` as a negative slide index). -/
def goToArgOk : Op → Prop
  | Op.goTo i => 0 ≤ i
  | _ => True

instance : (op : Op) → Decidable (goToArgOk op)
  | Op.next => inferInstanceAs (Decidable True)
  | Op.prev => inferInstanceAs (Decidable True)
  | Op.goTo i => inferInstanceAs (Decidable (0 ≤ i))
  | Op.visible _ => inferInstanceAs (Decidable True)
  | Op.slideTick => inferInstanceAs (Decidable True)
  | Op.loopTick => inferInstanceAs (Decidable True)

theorem tmod_mem_range {a b : Int} (ha : 0 ≤ a) (hb : 0 < b) :
    0 ≤ a.tmod b ∧ a.tmod b ≤ b - 1 := by
  rw [Int.tmod_eq_emod ha (le_of_lt hb)]
  refine ⟨Int.emod_nonneg a (by omega), ?_⟩
  have := Int.emod_lt_of_pos a hb
  omega

theorem normalizeIndex_range (cfg : Config) {i : Int} (hi : 0 ≤ i)
    (ht : 0 < cfg.totalSlides) : inRangeIdx cfg (normalizeIndex cfg i) := by
  unfold normalizeIndex inRangeIdx
  split
  · exact tmod_mem_range hi ht
  · constructor
    · exact le_min (le_max_right i 0) (by omega)
    · exact min_le_right _ _

theorem updateIndexes_indexInv (cfg : Config) (s : SliderState)
    (ht : 0 < cfg.totalSlides) {n p : Int}
    (hn : inRangeIdx cfg n) (hp : inRangeIdx cfg p) :
    IndexInv cfg (updateIndexes cfg s n (some p)) := by
  obtain ⟨hn0, hn1⟩ := hn
  refine ⟨⟨hn0, hn1⟩, hp, ?_⟩
  rw [updateIndexes_nextIndex]
  unfold inRangeIdx
  split
  · split <;> omega
  · omega

theorem startSlideProgress_indexInv (cfg : Config) {t : SliderState}
    (h : IndexInv cfg t) : IndexInv cfg (startSlideProgress cfg t) := by
  unfold IndexInv
  rw [startSlideProgress_currentSlide, startSlideProgress_prevIndex,
    startSlideProgress_nextIndex]
  exact h

theorem handleLoopProgress_indexInv (cfg : Config) {t : SliderState} (p : Int)
    (h : IndexInv cfg t) : IndexInv cfg (handleLoopProgress cfg t p) := h

theorem nextSlide_indexInv (cfg : Config) (s : SliderState)
    (ht : 0 < cfg.totalSlides) (h : IndexInv cfg s) :
    IndexInv cfg (nextSlide cfg s) := by
  unfold nextSlide
  split
  · exact h
  · dsimp only
    split
    · split
      · exact ⟨h.1, h.2.1, h.2.2⟩
      · refine startSlideProgress_indexInv cfg (updateIndexes_indexInv cfg _ ht ?_ h.1)
        exact tmod_mem_range (by have := h.1.1; omega) ht
    · split
      · exact ⟨h.1, h.2.1, h.2.2⟩
      · refine startSlideProgress_indexInv cfg (updateIndexes_indexInv cfg _ ht ?_ h.1)
        refine ⟨le_min (by have := h.1.1; omega) (by omega), min_le_right _ _⟩

theorem prevSlide_indexInv (cfg : Config) (s : SliderState)
    (ht : 0 < cfg.totalSlides) (h : IndexInv cfg s) :
    IndexInv cfg (prevSlide cfg s) := by
  unfold prevSlide
  dsimp only
  split
  · refine startSlideProgress_indexInv cfg (updateIndexes_indexInv cfg _ ht ?_ h.1)
    exact tmod_mem_range (by have := h.1.1; omega) ht
  · refine startSlideProgress_indexInv cfg (updateIndexes_indexInv cfg _ ht ?_ h.1)
    refine ⟨le_max_right _ _, ?_⟩
    have := h.1.2
    have hm : max (s.currentSlide - 1) 0 ≤ s.currentSlide - 1 ∨
        max (s.currentSlide - 1) 0 = 0 := by
      rcases max_choice (s.currentSlide - 1) 0 with h' | h'
      · exact Or.inl (le_of_eq h')
      · exact Or.inr h'
    omega

theorem goToSlide_indexInv (cfg : Config) (s : SliderState) (i : Int)
    (ht : 0 < cfg.totalSlides) (h : IndexInv cfg s) (hi : 0 ≤ i) :
    IndexInv cfg (goToSlide cfg s i) := by
  unfold goToSlide
  split
  · exact h
  · dsimp only
    have hn := normalizeIndex_range cfg hi ht
    split
    · exact startSlideProgress_indexInv cfg
        (handleLoopProgress_indexInv cfg _ (updateIndexes_indexInv cfg _ ht hn h.1))
    · exact updateIndexes_indexInv cfg _ ht hn h.1

theorem visibilityEffect_indexInv (cfg : Config) {t : SliderState}
    (h : IndexInv cfg t) : IndexInv cfg (visibilityEffect cfg t) := by
  unfold visibilityEffect
  split
  · exact ⟨h.1, h.2.1, h.2.2⟩
  · rw [goToSlide_self]
    exact h

theorem autoScrollEffect_indexInv (cfg : Config) {t : SliderState}
    (h : IndexInv cfg t) : IndexInv cfg (autoScrollEffect cfg t) := by
  unfold autoScrollEffect
  dsimp only
  split
  · split
    · exact handleLoopProgress_indexInv cfg _
        (startSlideProgress_indexInv cfg ⟨h.1, h.2.1, h.2.2⟩)
    · exact ⟨h.1, h.2.1, h.2.2⟩
  · exact ⟨h.1, h.2.1, h.2.2⟩

theorem setVisible_indexInv (cfg : Config) (s : SliderState) (v : Bool)
    (h : IndexInv cfg s) : IndexInv cfg (setVisible cfg s v) := by
  unfold setVisible
  split
  · exact h
  · exact autoScrollEffect_indexInv cfg (visibilityEffect_indexInv cfg ⟨h.1, h.2.1, h.2.2⟩)

theorem slideTick_indexInv (cfg : Config) (s : SliderState)
    (ht : 0 < cfg.totalSlides) (h : IndexInv cfg s) :
    IndexInv cfg (slideTick cfg s) := by
  unfold slideTick
  split
  · exact h
  · dsimp only
    split
    · split
      · exact nextSlide_indexInv cfg _ ht ⟨h.1, h.2.1, h.2.2⟩
      · exact ⟨h.1, h.2.1, h.2.2⟩
    · exact ⟨h.1, h.2.1, h.2.2⟩

theorem loopTick_indexInv (cfg : Config) (s : SliderState)
    (h : IndexInv cfg s) : IndexInv cfg (loopTick cfg s) := by
  unfold loopTick
  split
  · exact h
  · exact ⟨h.1, h.2.1, h.2.2⟩

theorem mount_indexes (cfg : Config) :
    (mount cfg).currentSlide = 0 ∧ (mount cfg).prevIndex = cfg.totalSlides - 1 ∧
    (mount cfg).nextIndex = 1 := by
  unfold mount autoScrollEffect visibilityEffect initState
  norm_num

/-- C1, counterexample.  The claim says all three indices lie in
`[0, totalSlides - 1]` in every reachable state with `totalSlides > 0`,
including the initial state and after `goToSlide` with negative indices.
But (a) the initial state of a one-slide slider has `nextIndex = 1`,
outside `[0, 0]`, and (b) `goToSlide(-1)` on a looping five-slide slider
sets `currentSlide = -1` (the JavaScript `%` keeps the sign of its left
operand). -/
theorem C1_counterexample :
    (mount cfg1).nextIndex = 1 ∧ cfg1.totalSlides - 1 = 0 ∧
    (runOps cfg5 [Op.goTo (-1)]).currentSlide = -1 := by decide

/-- C1, amended: for every configuration with `totalSlides ≥ 2` and every
event sequence in which each `goToSlide` call uses a nonnegative index,
all reachable states keep `currentSlide`, `prevIndex` and `nextIndex` in
`[0, totalSlides - 1]`.  (With `totalSlides = 1` the initial `nextIndex`
is already out of range, and a negative `goToSlide` index escapes the
range when `loop = true`.) -/
theorem C1_amended_bounds (cfg : Config) (ops : List Op)
    (h2 : 2 ≤ cfg.totalSlides) (hops : ∀ op ∈ ops, goToArgOk op) :
    IndexInv cfg (runOps cfg ops) := by
  have ht : 0 < cfg.totalSlides := by omega
  have hstep : ∀ (s : SliderState) (op : Op), IndexInv cfg s → goToArgOk op →
      IndexInv cfg (applyOp cfg s op) := by
    intro s op h hok
    cases op with
    | next => exact nextSlide_indexInv cfg s ht h
    | prev => exact prevSlide_indexInv cfg s ht h
    | goTo i => exact goToSlide_indexInv cfg s i ht h hok
    | visible v => exact setVisible_indexInv cfg s v h
    | slideTick => exact slideTick_indexInv cfg s ht h
    | loopTick => exact loopTick_indexInv cfg s h
  have hbase : IndexInv cfg (mount cfg) := by
    obtain ⟨hc, hp, hn⟩ := mount_indexes cfg
    unfold IndexInv inRangeIdx
    rw [hc, hp, hn]
    omega
  suffices hgen : ∀ (l : List Op) (s : SliderState), IndexInv cfg s →
      (∀ op ∈ l, goToArgOk op) → IndexInv cfg (l.foldl (applyOp cfg) s) by
    exact hgen ops (mount cfg) hbase hops
  intro l
  induction l with
  | nil => intro s hs _; exact hs
  | cons op l ih =>
    intro s hs hl
    exact ih (applyOp cfg s op)
      (hstep s op hs (hl op (by simp)))
      (fun o ho => hl o (by simp [ho]))

/-- C1, witness for the amended theorem on a five-slide run. -/
theorem C1_amended_bounds_witness :
    IndexInv cfg5 (runOps cfg5 [Op.prev, Op.goTo 3]) :=
  C1_amended_bounds cfg5 [Op.prev, Op.goTo 3] (by decide) (by decide)

/-! ### Claim C2: how `prevIndex` and `nextIndex` are maintained -/

/-- The `nextIndex` expression of `updateIndexes` agrees with the spec's
"wrap/clamp of `currentSlide + 1`" whenever the new current slide is in
range. -/
theorem codeNext_eq_specNext (cfg : Config) {c : Int}
    (h0 : 0 ≤ c) (h1 : c ≤ cfg.totalSlides - 1) :
    (if c = cfg.totalSlides - 1 then (if cfg.loop then 0 else cfg.totalSlides - 1) else c + 1) =
      specNextIndex cfg c := by
  unfold specNextIndex
  by_cases hl : cfg.loop = true
  · simp only [hl, if_true]
    split
    · rename_i hc
      have hcc : c + 1 = cfg.totalSlides := by omega
      rw [hcc]
      exact Int.tmod_self.symm
    · rename_i hc
      exact (Int.tmod_eq_of_lt (by omega) (by omega)).symm
  · simp only [Bool.not_eq_true] at hl
    simp only [hl, Bool.false_eq_true, if_false]
    split
    · exact (min_eq_right (by omega)).symm
    · exact (min_eq_left (by omega)).symm

/-- C2, counterexample.  The claim says `prevIndex` always equals the
recomputation `currentSlide - 1` wrapped per loop policy.  But every
navigation call passes the **old** current slide to `updateIndexes` as
`prevSlide`: after `prevSlide()` from slide 0 of a looping five-slide
slider, `currentSlide = 4` and `prevIndex = 0`, while the spec's
recomputation from the new current slide gives `3`. -/
theorem C2_counterexample :
    (prevSlide cfg5 (mount cfg5)).currentSlide = 4 ∧
    (prevSlide cfg5 (mount cfg5)).prevIndex = 0 ∧
    specPrevIndex cfg5 4 = 3 ∧
    (prevSlide cfg5 (mount cfg5)).prevIndex ≠
      specPrevIndex cfg5 ((prevSlide cfg5 (mount cfg5)).currentSlide) := by decide

/-- C2, amended: after every navigation operation that performs a
transition, `nextIndex` is recomputed as a pure function of the new
`currentSlide`, `loop` and `totalSlides` (agreeing with the wrap/clamp of
`currentSlide + 1`), but `prevIndex` is set to the previously current
slide — the slide navigated away from — not to the recomputation
`currentSlide - 1`. -/
theorem C2_amended_indexes (cfg : Config) (s : SliderState) (i : Int)
    (ht : 0 < cfg.totalSlides) (hc : inRangeIdx cfg s.currentSlide) (hi : 0 ≤ i) :
    ((nextSlide cfg s).currentSlide ≠ s.currentSlide →
      (nextSlide cfg s).prevIndex = s.currentSlide ∧
      (nextSlide cfg s).nextIndex = specNextIndex cfg (nextSlide cfg s).currentSlide) ∧
    ((prevSlide cfg s).prevIndex = s.currentSlide ∧
      (prevSlide cfg s).nextIndex = specNextIndex cfg (prevSlide cfg s).currentSlide) ∧
    (i ≠ s.currentSlide →
      (goToSlide cfg s i).prevIndex = s.currentSlide ∧
      (goToSlide cfg s i).nextIndex = specNextIndex cfg (goToSlide cfg s i).currentSlide) := by
  refine ⟨?_, ?_, ?_⟩
  · intro hne
    unfold nextSlide at hne ⊢
    by_cases hg : (s.isAnimating = true ∨ s.isInitialized = false)
    · rw [if_pos hg] at hne
      exact absurd rfl hne
    · rw [if_neg hg] at hne ⊢
      dsimp only at hne ⊢
      set n : Int := (if cfg.loop = true then (s.currentSlide + 1).tmod cfg.totalSlides
        else min (s.currentSlide + 1) (cfg.totalSlides - 1)) with hn
      have hnb : 0 ≤ n ∧ n ≤ cfg.totalSlides - 1 := by
        rw [hn]
        by_cases hl : cfg.loop = true
        · simp only [hl, if_true]
          exact tmod_mem_range (by have := hc.1; omega) ht
        · simp only [Bool.not_eq_true] at hl
          simp only [hl, Bool.false_eq_true, if_false]
          exact ⟨le_min (by have := hc.1; omega) (by omega), min_le_right _ _⟩
      by_cases hbd : (cfg.loop = false ∧ n = s.currentSlide)
      · rw [if_pos hbd] at hne
        exact absurd rfl hne
      · rw [if_neg hbd] at hne ⊢
        constructor
        · simp
        · rw [startSlideProgress_nextIndex, startSlideProgress_currentSlide,
            updateIndexes_nextIndex, updateIndexes_currentSlide]
          exact codeNext_eq_specNext cfg hnb.1 hnb.2
  · unfold prevSlide
    dsimp only
    set n : Int := (if cfg.loop = true
      then (s.currentSlide - 1 + cfg.totalSlides).tmod cfg.totalSlides
      else max (s.currentSlide - 1) 0) with hn
    have hnb : 0 ≤ n ∧ n ≤ cfg.totalSlides - 1 := by
      rw [hn]
      by_cases hl : cfg.loop = true
      · simp only [hl, if_true]
        exact tmod_mem_range (by have := hc.1; omega) ht
      · simp only [Bool.not_eq_true] at hl
        simp only [hl, Bool.false_eq_true, if_false]
        exact ⟨le_max_right _ _, max_le (by have := hc.2; omega) (by omega)⟩
    constructor
    · simp
    · rw [startSlideProgress_nextIndex, startSlideProgress_currentSlide,
        updateIndexes_nextIndex, updateIndexes_currentSlide]
      exact codeNext_eq_specNext cfg hnb.1 hnb.2
  · intro hne
    unfold goToSlide
    rw [if_neg hne]
    dsimp only
    have hn := normalizeIndex_range cfg hi ht
    by_cases ha : (cfg.autoScroll = true ∧ 0 < cfg.speed)
    · rw [if_pos ha]
      constructor
      · simp
      · rw [startSlideProgress_nextIndex, handleLoopProgress_nextIndex,
          updateIndexes_nextIndex, startSlideProgress_currentSlide,
          handleLoopProgress_currentSlide, updateIndexes_currentSlide]
        exact codeNext_eq_specNext cfg hn.1 hn.2
    · rw [if_neg ha]
      constructor
      · simp
      · rw [updateIndexes_nextIndex, updateIndexes_currentSlide]
        exact codeNext_eq_specNext cfg hn.1 hn.2

/-- C2, witness for the amended theorem at a concrete state. -/
theorem C2_amended_indexes_witness :
    ((nextSlide cfg5 (mount cfg5)).currentSlide ≠ (mount cfg5).currentSlide →
      (nextSlide cfg5 (mount cfg5)).prevIndex = (mount cfg5).currentSlide ∧
      (nextSlide cfg5 (mount cfg5)).nextIndex =
        specNextIndex cfg5 (nextSlide cfg5 (mount cfg5)).currentSlide) ∧
    ((prevSlide cfg5 (mount cfg5)).prevIndex = (mount cfg5).currentSlide ∧
      (prevSlide cfg5 (mount cfg5)).nextIndex =
        specNextIndex cfg5 (prevSlide cfg5 (mount cfg5)).currentSlide) ∧
    ((3 : Int) ≠ (mount cfg5).currentSlide →
      (goToSlide cfg5 (mount cfg5) 3).prevIndex = (mount cfg5).currentSlide ∧
      (goToSlide cfg5 (mount cfg5) 3).nextIndex =
        specNextIndex cfg5 (goToSlide cfg5 (mount cfg5) 3).currentSlide) :=
  C2_amended_indexes cfg5 (mount cfg5) 3 (by decide) (by decide) (by decide)

/-! ### Claim C4: visibility restore -/

/-- C4, counterexample.  The claim says that on a false→true visibility
transition the loop-progress timer is restarted seeded at
`currentSlide * speed`, not at zero.  But `goToSlide(currentSlide)`
returns immediately (index equality guard), and the auto-scroll effect
restarts the loop interval with its default seed `0`: after advancing to
slide 1 (`speed = 1000`, so the claimed seed is `1000`), hiding and
re-showing the slider leaves the loop interval's accumulator at `0`. -/
theorem C4_counterexample :
    (runOps cfgAuto [Op.visible true, Op.next, Op.visible false, Op.visible true]).currentSlide
        = 1 ∧
    (runOps cfgAuto [Op.visible true, Op.next, Op.visible false, Op.visible true]).loopTimer
        = some 0 ∧
    (runOps cfgAuto [Op.visible true, Op.next, Op.visible false, Op.visible true]).loopTimer
        ≠ some
          ((runOps cfgAuto [Op.visible true, Op.next, Op.visible false,
            Op.visible true]).currentSlide * cfgAuto.speed) := by decide

/-- C4, amended: when the visibility signal transitions from false to
true (with auto-scroll on, `speed > 0`, controller initialized), the
re-invoked `goToSlide(currentSlide)` is a complete no-op because of its
index-equality guard; both timers are nonetheless restarted — by the
auto-scroll effect — with the loop-progress timer seeded at `0` (not at
`currentSlide * speed`), and `currentSlide` is unchanged. -/
theorem C4_amended_visibility (cfg : Config) (s : SliderState)
    (hv : s.isVisible = false) (hi : s.isInitialized = true)
    (ha : cfg.autoScroll = true) (hs : 0 < cfg.speed) :
    goToSlide cfg { s with isVisible := true } s.currentSlide = { s with isVisible := true } ∧
    (setVisible cfg s true).currentSlide = s.currentSlide ∧
    (setVisible cfg s true).slideTimer = some 0 ∧
    (setVisible cfg s true).loopTimer = some 0 := by
  have h1 : setVisible cfg s true = autoScrollEffect cfg { s with isVisible := true } := by
    unfold setVisible visibilityEffect
    rw [if_neg (by simp [hv]), if_neg (by simp)]
    rw [goToSlide_self]
  have hc1 : ({ s with
      isVisible := true
      slideTimer := none
      loopTimer := none } : SliderState).isInitialized = true := hi
  have hc2 : cfg.autoScroll = true ∧
      ({ s with
        isVisible := true
        slideTimer := none
        loopTimer := none } : SliderState).isVisible = true ∧ 0 < cfg.speed :=
    ⟨ha, rfl, hs⟩
  have h2 : autoScrollEffect cfg { s with isVisible := true } =
      handleLoopProgress cfg
        (startSlideProgress cfg
          { s with
            isVisible := true
            slideTimer := none
            loopTimer := none }) 0 := by
    unfold autoScrollEffect
    dsimp only
    rw [if_pos hc1, if_pos hc2]
  have hno : ¬(cfg.autoScroll = false ∨ cfg.speed ≤ 0) := by
    simp [ha]
    omega
  refine ⟨goToSlide_self cfg _, ?_, ?_, ?_⟩ <;> rw [h1, h2]
  · simp
  · rw [handleLoopProgress_slideTimer, startSlideProgress_eq, if_neg hno]
  · rw [handleLoopProgress_loopTimer]

/-- C4, witness for the amended theorem at the mounted three-slide
auto-scroll slider. -/
theorem C4_amended_visibility_witness :
    goToSlide cfgAuto { mount cfgAuto with isVisible := true } (mount cfgAuto).currentSlide
        = { mount cfgAuto with isVisible := true } ∧
    (setVisible cfgAuto (mount cfgAuto) true).currentSlide = (mount cfgAuto).currentSlide ∧
    (setVisible cfgAuto (mount cfgAuto) true).slideTimer = some 0 ∧
    (setVisible cfgAuto (mount cfgAuto) true).loopTimer = some 0 :=
  C4_amended_visibility cfgAuto (mount cfgAuto) (by decide) (by decide) rfl (by decide)

/-! ### Claim C7: when the slide timer can run -/

/-- C7, counterexample.  The claim says the slide timer is never active
unless `autoScroll && speed > 0 && isVisible`.  But `startSlideProgress`
checks only `autoScroll && speed > 0`: calling `goToSlide(1)` on the
mounted (still invisible) auto-scroll slider leaves the slide interval
scheduled while `isVisible = false`. -/
theorem C7_counterexample :
    (runOps cfgAuto [Op.goTo 1]).isVisible = false ∧
    (runOps cfgAuto [Op.goTo 1]).slideTimer = some 0 := by decide

theorem slideTick_none (cfg : Config) {s : SliderState} (hs : s.slideTimer = none) :
    slideTick cfg s = s := by
  unfold slideTick
  split
  · rfl
  · simp_all

theorem mount_timers (cfg : Config) :
    (mount cfg).slideTimer = none ∧ (mount cfg).loopTimer = none ∧
    (mount cfg).loopProgress = 0 ∧ (mount cfg).slideTimeProgress = 0 := by
  unfold mount autoScrollEffect visibilityEffect initState
  norm_num

/-- C7, amended: the slide-progress timer never runs unless
`autoScroll = true` and `speed > 0` — but visibility is **not** part of
the guard: navigation operations (including `goToSlide` while hidden)
start it regardless of `isVisible`.  Formally: when
`autoScroll && speed > 0` fails, no reachable state has an active slide
interval. -/
theorem C7_amended_slide_timer (cfg : Config) (ops : List Op)
    (h : ¬(cfg.autoScroll = true ∧ 0 < cfg.speed)) :
    (runOps cfg ops).slideTimer = none := by
  have hg : cfg.autoScroll = false ∨ cfg.speed ≤ 0 := by
    rcases Bool.eq_false_or_eq_true cfg.autoScroll with h' | h'
    · right
      by_contra hsp
      exact h ⟨h', by omega⟩
    · exact Or.inl h'
  have hssp : ∀ t : SliderState, startSlideProgress cfg t = t := by
    intro t
    unfold startSlideProgress
    rw [if_pos hg]
  have hase : ∀ t : SliderState, (autoScrollEffect cfg t).slideTimer = none := by
    intro t
    unfold autoScrollEffect
    dsimp only
    split
    · split
      · rw [handleLoopProgress_slideTimer, hssp]
      · rfl
    · rfl
  have hstep : ∀ (s : SliderState) (op : Op), s.slideTimer = none →
      (applyOp cfg s op).slideTimer = none := by
    intro s op hs
    cases op with
    | next =>
      show (nextSlide cfg s).slideTimer = none
      unfold nextSlide
      split
      · exact hs
      · dsimp only
        split <;> split <;> simp [hssp, hs]
    | prev =>
      show (prevSlide cfg s).slideTimer = none
      unfold prevSlide
      dsimp only
      split <;> simp [hssp, hs]
    | goTo i =>
      show (goToSlide cfg s i).slideTimer = none
      unfold goToSlide
      split
      · exact hs
      · dsimp only
        split
        · simp [hssp]
        · simp
    | visible v =>
      show (setVisible cfg s v).slideTimer = none
      unfold setVisible
      split
      · exact hs
      · exact hase _
    | slideTick =>
      show (slideTick cfg s).slideTimer = none
      rw [slideTick_none cfg hs]
      exact hs
    | loopTick =>
      show (loopTick cfg s).slideTimer = none
      unfold loopTick
      split
      · exact hs
      · exact hs
  suffices hgen : ∀ (l : List Op) (s : SliderState), s.slideTimer = none →
      (l.foldl (applyOp cfg) s).slideTimer = none by
    exact hgen ops (mount cfg) (mount_timers cfg).1
  intro l
  induction l with
  | nil => intro s hs; exact hs
  | cons op l ih =>
    intro s hs
    exact ih _ (hstep s op hs)

/-- C7, witness for the amended theorem on a slider without auto-scroll. -/
theorem C7_amended_slide_timer_witness :
    ¬(cfg5.autoScroll = true ∧ 0 < cfg5.speed) ∧
    (runOps cfg5 [Op.prev]).slideTimer = none :=
  ⟨by decide, C7_amended_slide_timer cfg5 [Op.prev] (by decide)⟩

/-! ### Claim C9: bounds on the published loop progress -/

theorem loopTick_none (cfg : Config) {s : SliderState} (hs : s.loopTimer = none) :
    loopTick cfg s = s := by
  unfold loopTick
  split
  · rfl
  · simp_all

/-- One loop tick, explicitly: the published progress is
`(loopTime + 100) / (speed * totalSlides) * 100` and the accumulator
resets to 0 exactly when that published value reaches 100. -/
theorem loopTick_some (cfg : Config) {s : SliderState} {t : Int}
    (h : s.loopTimer = some t) :
    loopTick cfg s =
      { s with
        loopTimer := some (if (100 : ℚ) ≤
            ((t + 100 : Int) : ℚ) / ((cfg.speed * cfg.totalSlides : Int) : ℚ) * 100
          then 0 else t + 100)
        loopProgress :=
          ((t + 100 : Int) : ℚ) / ((cfg.speed * cfg.totalSlides : Int) : ℚ) * 100 } := by
  unfold loopTick
  split
  · simp_all
  · rename_i t' heq
    rw [h] at heq
    injection heq with heq'
    subst heq'
    rfl

/-- The loop-progress invariant maintained by the controller: the
published value is nonnegative and below `100 + 100 * 100 / duration`
(the one-tick overshoot bound), and a scheduled loop interval's
accumulator always lies in `[0, duration)`. -/
def LoopInv (cfg : Config) (s : SliderState) : Prop :=
  (0 ≤ s.loopProgress ∧
    s.loopProgress < 100 + 10000 / ((cfg.speed * cfg.totalSlides : Int) : ℚ)) ∧
  ∀ t : Int, s.loopTimer = some t → 0 ≤ t ∧ t < cfg.speed * cfg.totalSlides

theorem LoopInv_of_eq (cfg : Config) {s t : SliderState}
    (hp : t.loopProgress = s.loopProgress) (hτ : t.loopTimer = s.loopTimer)
    (h : LoopInv cfg s) : LoopInv cfg t := by
  unfold LoopInv at h ⊢
  rw [hp, hτ]
  exact h

theorem nextSlide_loopInv (cfg : Config) {s : SliderState} (h : LoopInv cfg s) :
    LoopInv cfg (nextSlide cfg s) :=
  LoopInv_of_eq cfg (nextSlide_loopProgress cfg s) (nextSlide_loopTimer cfg s) h

theorem prevSlide_loopInv (cfg : Config) {s : SliderState} (h : LoopInv cfg s) :
    LoopInv cfg (prevSlide cfg s) :=
  LoopInv_of_eq cfg (prevSlide_loopProgress cfg s) (prevSlide_loopTimer cfg s) h

theorem goToSlide_loopInv (cfg : Config) (s : SliderState) (i : Int)
    (hs : 0 < cfg.speed) (ht : 0 < cfg.totalSlides) (hi : 0 ≤ i)
    (h : LoopInv cfg s) : LoopInv cfg (goToSlide cfg s i) := by
  unfold goToSlide
  split
  · exact h
  · dsimp only
    have hn := normalizeIndex_range cfg hi ht
    split
    · constructor
      · rw [startSlideProgress_loopProgress, handleLoopProgress_loopProgress,
          updateIndexes_loopProgress]
        exact h.1
      · intro u hu
        rw [startSlideProgress_loopTimer, handleLoopProgress_loopTimer] at hu
        injection hu with hu'
        subst hu'
        constructor
        · exact mul_nonneg hn.1 (le_of_lt hs)
        · calc normalizeIndex cfg i * cfg.speed
              < cfg.totalSlides * cfg.speed :=
                mul_lt_mul_of_pos_right (by have := hn.2; omega) hs
            _ = cfg.speed * cfg.totalSlides := mul_comm _ _
    · constructor
      · rw [updateIndexes_loopProgress]
        exact h.1
      · intro u hu
        rw [updateIndexes_loopTimer] at hu
        simp at hu

theorem visibilityEffect_loopInv (cfg : Config) {t : SliderState}
    (h : LoopInv cfg t) : LoopInv cfg (visibilityEffect cfg t) := by
  unfold visibilityEffect
  split
  · exact ⟨h.1, by intro u hu; simp at hu⟩
  · rw [goToSlide_self]
    exact h

theorem autoScrollEffect_loopInv (cfg : Config)
    (hs : 0 < cfg.speed) (ht : 0 < cfg.totalSlides) {t : SliderState}
    (h : LoopInv cfg t) : LoopInv cfg (autoScrollEffect cfg t) := by
  have hD : (0 : Int) < cfg.speed * cfg.totalSlides := mul_pos hs ht
  unfold autoScrollEffect
  dsimp only
  split
  · split
    · constructor
      · rw [handleLoopProgress_loopProgress, startSlideProgress_loopProgress]
        exact h.1
      · intro u hu
        rw [handleLoopProgress_loopTimer] at hu
        injection hu with hu'
        subst hu'
        exact ⟨le_refl 0, hD⟩
    · exact ⟨h.1, by intro u hu; simp at hu⟩
  · exact ⟨h.1, by intro u hu; simp at hu⟩

theorem setVisible_loopInv (cfg : Config) (s : SliderState) (v : Bool)
    (hs : 0 < cfg.speed) (ht : 0 < cfg.totalSlides)
    (h : LoopInv cfg s) : LoopInv cfg (setVisible cfg s v) := by
  unfold setVisible
  split
  · exact h
  · exact autoScrollEffect_loopInv cfg hs ht
      (visibilityEffect_loopInv cfg ⟨h.1, h.2⟩)

theorem slideTick_loopInv (cfg : Config) (s : SliderState)
    (h : LoopInv cfg s) : LoopInv cfg (slideTick cfg s) := by
  unfold slideTick
  split
  · exact h
  · dsimp only
    split
    · split
      · exact nextSlide_loopInv cfg ⟨h.1, h.2⟩
      · exact ⟨h.1, h.2⟩
    · exact ⟨h.1, h.2⟩

theorem loopTick_loopInv (cfg : Config) (s : SliderState)
    (hs : 0 < cfg.speed) (ht : 0 < cfg.totalSlides)
    (h : LoopInv cfg s) : LoopInv cfg (loopTick cfg s) := by
  have hD : (0 : Int) < cfg.speed * cfg.totalSlides := mul_pos hs ht
  have hDQ : (0 : ℚ) < ((cfg.speed * cfg.totalSlides : Int) : ℚ) := by
    exact_mod_cast hD
  rcases hlt : s.loopTimer with _ | t
  · rw [loopTick_none cfg hlt]
    exact h
  · obtain ⟨ht0, ht1⟩ := h.2 t hlt
    rw [loopTick_some cfg hlt]
    have hplhs : ((t + 100 : Int) : ℚ) / ((cfg.speed * cfg.totalSlides : Int) : ℚ) * 100 =
        ((t + 100 : Int) : ℚ) * 100 / ((cfg.speed * cfg.totalSlides : Int) : ℚ) := by
      ring
    have hcast : ((t + 100 : Int) : ℚ) < ((cfg.speed * cfg.totalSlides : Int) : ℚ) + 100 := by
      exact_mod_cast (by omega : (t + 100 : Int) < cfg.speed * cfg.totalSlides + 100)
    constructor
    · constructor
      · show (0 : ℚ) ≤ ((t + 100 : Int) : ℚ) / ((cfg.speed * cfg.totalSlides : Int) : ℚ) * 100
        apply mul_nonneg _ (by norm_num)
        apply div_nonneg _ (le_of_lt hDQ)
        exact_mod_cast (by omega : (0 : Int) ≤ t + 100)
      · show ((t + 100 : Int) : ℚ) / ((cfg.speed * cfg.totalSlides : Int) : ℚ) * 100 <
          100 + 10000 / ((cfg.speed * cfg.totalSlides : Int) : ℚ)
        have key : ((t + 100 : Int) : ℚ) * 100 / ((cfg.speed * cfg.totalSlides : Int) : ℚ) <
            (((cfg.speed * cfg.totalSlides : Int) : ℚ) + 100) * 100 /
              ((cfg.speed * cfg.totalSlides : Int) : ℚ) :=
          (div_lt_div_iff_of_pos_right hDQ).mpr (mul_lt_mul_of_pos_right hcast (by norm_num))
        have hrhs : (((cfg.speed * cfg.totalSlides : Int) : ℚ) + 100) * 100 /
            ((cfg.speed * cfg.totalSlides : Int) : ℚ) =
            100 + 10000 / ((cfg.speed * cfg.totalSlides : Int) : ℚ) := by
          field_simp
          ring
        rw [hplhs]
        rw [hrhs] at key
        exact key
    · intro u hu
      have hu' : (if (100 : ℚ) ≤
          ((t + 100 : Int) : ℚ) / ((cfg.speed * cfg.totalSlides : Int) : ℚ) * 100
          then (0 : Int) else t + 100) = u := by
        injection hu
      by_cases hcond : (100 : ℚ) ≤
          ((t + 100 : Int) : ℚ) / ((cfg.speed * cfg.totalSlides : Int) : ℚ) * 100
      · rw [if_pos hcond] at hu'
        subst hu'
        exact ⟨le_refl 0, hD⟩
      · rw [if_neg hcond] at hu'
        subst hu'
        refine ⟨by omega, ?_⟩
        have hlt100 : ((t + 100 : Int) : ℚ) /
            ((cfg.speed * cfg.totalSlides : Int) : ℚ) * 100 < 100 := not_le.mp hcond
        have hdiv1 : ((t + 100 : Int) : ℚ) / ((cfg.speed * cfg.totalSlides : Int) : ℚ) < 1 := by
          linarith
        have hfin : ((t + 100 : Int) : ℚ) < ((cfg.speed * cfg.totalSlides : Int) : ℚ) :=
          (div_lt_one hDQ).mp hdiv1
        exact_mod_cast hfin

theorem mount_loopInv (cfg : Config)
    (hs : 0 < cfg.speed) (ht : 0 < cfg.totalSlides) : LoopInv cfg (mount cfg) := by
  have hDQ : (0 : ℚ) < ((cfg.speed * cfg.totalSlides : Int) : ℚ) := by
    exact_mod_cast mul_pos hs ht
  obtain ⟨-, hlt, hlp, -⟩ := mount_timers cfg
  refine ⟨⟨?_, ?_⟩, ?_⟩
  · rw [hlp]
  · rw [hlp]
    have : (0 : ℚ) < 10000 / ((cfg.speed * cfg.totalSlides : Int) : ℚ) :=
      div_pos (by norm_num) hDQ
    linarith
  · intro u hu
    rw [hlt] at hu
    simp at hu

/-- C9, counterexample.  The claim says the exposed `loopProgress` never
exceeds 100, even at tick boundaries where the cycle duration is not a
multiple of the tick interval.  With `speed = 150` and one slide the
cycle lasts 150 ms: after two 100 ms ticks the accumulated 200 ms yields
a published `loopProgress` of `200 / 150 * 100 = 400/3 ≈ 133.3 > 100`
(the value is published before the accumulator resets). -/
theorem C9_counterexample :
    (runOps cfgTick [Op.visible true, Op.loopTick, Op.loopTick]).loopProgress = 400 / 3 ∧
    (100 : ℚ) < 400 / 3 := by
  constructor
  · show (loopTick cfgTick (loopTick cfgTick
      (setVisible cfgTick (mount cfgTick) true))).loopProgress = 400 / 3
    have h1 : (setVisible cfgTick (mount cfgTick) true).loopTimer = some 0 := by decide
    rw [loopTick_some cfgTick h1]
    have hc1 : ¬((100 : ℚ) ≤
        (((0 : Int) + 100 : Int) : ℚ) / ((cfgTick.speed * cfgTick.totalSlides : Int) : ℚ) * 100) := by
      norm_num [cfgTick]
    have h2 : ({ setVisible cfgTick (mount cfgTick) true with
        loopTimer := some (if (100 : ℚ) ≤
            (((0 : Int) + 100 : Int) : ℚ) /
              ((cfgTick.speed * cfgTick.totalSlides : Int) : ℚ) * 100
          then 0 else (0 : Int) + 100)
        loopProgress :=
          (((0 : Int) + 100 : Int) : ℚ) /
            ((cfgTick.speed * cfgTick.totalSlides : Int) : ℚ) * 100 } : SliderState).loopTimer
        = some 100 := by
      rw [show ({ setVisible cfgTick (mount cfgTick) true with
        loopTimer := some (if (100 : ℚ) ≤
            (((0 : Int) + 100 : Int) : ℚ) /
              ((cfgTick.speed * cfgTick.totalSlides : Int) : ℚ) * 100
          then 0 else (0 : Int) + 100)
        loopProgress :=
          (((0 : Int) + 100 : Int) : ℚ) /
            ((cfgTick.speed * cfgTick.totalSlides : Int) : ℚ) * 100 } : SliderState).loopTimer
        = some (if (100 : ℚ) ≤
            (((0 : Int) + 100 : Int) : ℚ) /
              ((cfgTick.speed * cfgTick.totalSlides : Int) : ℚ) * 100
          then 0 else (0 : Int) + 100) from rfl]
      rw [if_neg hc1]
      norm_num
    rw [loopTick_some cfgTick h2]
    show (((100 : Int) + 100 : Int) : ℚ) /
        ((cfgTick.speed * cfgTick.totalSlides : Int) : ℚ) * 100 = 400 / 3
    norm_num [cfgTick]
  · norm_num

/-- C9, amended: for every run with `speed > 0`, `totalSlides > 0` and
nonnegative `goToSlide` arguments, the exposed `loopProgress` is
nonnegative and below `100 + 100 * 100 / (speed * totalSlides)`: it wraps
after each cycle, but at the wrap tick a value above 100 (by less than
one tick's worth of progress) is exposed whenever `speed * totalSlides`
is not an exact multiple of the 100 ms tick, so the claimed upper bound
of 100 holds only up to that one-tick overshoot. -/
theorem C9_amended_loop_progress (cfg : Config) (ops : List Op)
    (hs : 0 < cfg.speed) (ht : 0 < cfg.totalSlides)
    (hops : ∀ op ∈ ops, goToArgOk op) :
    0 ≤ (runOps cfg ops).loopProgress ∧
    (runOps cfg ops).loopProgress <
      100 + 10000 / ((cfg.speed * cfg.totalSlides : Int) : ℚ) := by
  suffices hinv : LoopInv cfg (runOps cfg ops) from hinv.1
  have hstep : ∀ (s : SliderState) (op : Op), LoopInv cfg s → goToArgOk op →
      LoopInv cfg (applyOp cfg s op) := by
    intro s op h hok
    cases op with
    | next => exact nextSlide_loopInv cfg h
    | prev => exact prevSlide_loopInv cfg h
    | goTo i => exact goToSlide_loopInv cfg s i hs ht hok h
    | visible v => exact setVisible_loopInv cfg s v hs ht h
    | slideTick => exact slideTick_loopInv cfg s h
    | loopTick => exact loopTick_loopInv cfg s hs ht h
  suffices hgen : ∀ (l : List Op) (s : SliderState), LoopInv cfg s →
      (∀ op ∈ l, goToArgOk op) → LoopInv cfg (l.foldl (applyOp cfg) s) by
    exact hgen ops (mount cfg) (mount_loopInv cfg hs ht) hops
  intro l
  induction l with
  | nil => intro s hsi _; exact hsi
  | cons op l ih =>
    intro s hsi hl
    exact ih (applyOp cfg s op)
      (hstep s op hsi (hl op (by simp)))
      (fun o ho => hl o (by simp [ho]))

/-- C9, witness for the amended theorem on a freshly mounted slider. -/
theorem C9_amended_loop_progress_witness :
    0 ≤ (runOps cfgTick []).loopProgress ∧
    (runOps cfgTick []).loopProgress <
      100 + 10000 / ((cfgTick.speed * cfgTick.totalSlides : Int) : ℚ) :=
  C9_amended_loop_progress cfgTick [] (by decide) (by decide) (by decide)

end UseSlider
